import Mathlib

/-!
Verification of the slack-utils formatter scripts
(src/scripts/foc-md-formatter.py and src/scripts/format-links.py).

The two scripts are pure request/response formatters: given an action tag,
a headers dict and a body dict, each one computes a small result record
(label/url or content).  This file is a shallow embedding of those pure
functions, translated from the Python source, together with theorems about
the formatting policies.

Modelling conventions:
- Python dicts for headers/body are modelled as structures of optional
  string fields (only the fields the scripts ever read).
- Python truthiness of optional strings (absent or empty means falsy, as
  used in the `x or y` fallback chains) is modelled by pyOrS.
- Python float parsing of timestamp strings is modelled on the
  decimal-numeral grammar (optional sign, integer digits, optional dot and
  fraction digits, at least one digit).  This is a sound
  under-approximation of the builtin: every string the model accepts, the
  builtin accepts with the same exact value; the builtin additionally
  accepts exponent, infinity, nan, underscore and surrounding-whitespace
  forms that the model rejects.  Universal theorems therefore only use the
  acceptance direction of the model, and failure behaviour is asserted
  only at concrete instances the builtin also rejects.  The parsed value
  is kept exact (sign, integer digits, fraction digits); the datetime
  produced by datetime.fromtimestamp is a function of the floor of that
  value in seconds, guarded by the representable range of datetime (years
  1 to 9999, the ValueError path of fromtimestamp); it agrees with the
  binary float64 route whenever the fraction has at most 6 digits and the
  magnitude is at most 2^32 seconds (half an ulp is then below half a
  microsecond), which covers every theorem below that states a datetime
  value.
- datetime.fromtimestamp(_, tz=utc) and dt.isocalendar()[1] are modelled
  by the standard proleptic-Gregorian civil-from-days conversion and the
  ISO-8601 week-number algorithm; the known boundary values from the
  repository test suite (weeks 53/52/1/3) are verified against the model
  in the theorems below.
-/

/-- A UTC wall-clock datetime, the part of Python datetime the scripts read. -/
structure DateTime where
  year : Int
  month : Int
  day : Int
  hour : Int
  minute : Int
  second : Int
deriving DecidableEq, Repr

/-- Result record of the format-permalink / format-attachment / format-file
actions: a display label and a url. -/
structure FormattedLink where
  label : String
  url : String
deriving DecidableEq, Repr

/-- Headers dict of a request: the fields the scripts read, each optional. -/
structure Headers where
  action : Option String := none
  channel_id : Option String := none
  channel_name : Option String := none
  message_ts : Option String := none
deriving DecidableEq, Repr

/-- Body dict of a request: the union of the fields any handler reads,
each optional. -/
structure Body where
  id : Option String := none
  name : Option String := none
  title : Option String := none
  mimetype : Option String := none
  original_url : Option String := none
  from_url : Option String := none
  title_link : Option String := none
  url : Option String := none
  fallback : Option String := none
  url_private : Option String := none
  permalink : Option String := none
deriving DecidableEq, Repr

/-- Python `x or y` where x is an optional string and y a string:
absent and empty are falsy. -/
def pyOrS (x : Option String) (y : String) : String :=
  match x with
  | none => y
  | some s => if s = "" then y else s

/-- Python `c in s` for a single character c. -/
def containsChar (s : String) (c : Char) : Bool :=
  s.data.any (fun a => a = c)

/-- Split a character list at its first dot; the second component is none
when there is no dot. -/
def splitAtDot : List Char → List Char × Option (List Char)
  | [] => ([], none)
  | c :: cs =>
    if c = '.' then ([], some cs)
    else
      let r := splitAtDot cs
      (c :: r.1, r.2)

/-- Exact decimal value of a Python-parseable timestamp string:
sign, integer digits, optional fraction digits. -/
structure PyDecimal where
  neg : Bool
  intDigits : List Char
  fracDigits : Option (List Char)
deriving DecidableEq, Repr

/-- Model of Python float(s) on decimal numerals: optional sign, then
digits with at most one dot and at least one digit overall.  Returns the
exact decimal decomposition.  Sound under-approximation of the builtin:
whatever it accepts, float() accepts with the same value; the builtin
also accepts exponent, infinity, nan, underscore and
surrounding-whitespace forms that this model maps to none, so none here
does not in general imply the builtin raises — failure of the program is
only concluded at concrete instances the builtin also rejects. -/
def parsePyFloat (s : String) : Option PyDecimal :=
  let (neg, rest) :=
    match s.data with
    | '-' :: r => (true, r)
    | '+' :: r => (false, r)
    | r => (false, r)
  match splitAtDot rest with
  | (ip, none) =>
    if !ip.isEmpty && ip.all Char.isDigit then some ⟨neg, ip, none⟩ else none
  | (ip, some fp) =>
    if (!ip.isEmpty || !fp.isEmpty) && ip.all Char.isDigit && fp.all Char.isDigit then
      some ⟨neg, ip, some fp⟩
    else none

/-- Numeric value of a list of decimal digit characters. -/
def digitsToNat (cs : List Char) : Nat :=
  cs.foldl (fun n c => 10 * n + (c.toNat - 48)) 0

/-- Whether the fractional part of a parsed decimal is zero (absent or all
zero digits). -/
def fracIsZero (p : PyDecimal) : Bool :=
  match p.fracDigits with
  | none => true
  | some fp => fp.all (fun c => c = '0')

/-- Floor of the exact decimal value, in seconds: the integer second that
datetime.fromtimestamp lands in. -/
def floorSeconds (p : PyDecimal) : Int :=
  let ip : Int := (digitsToNat p.intDigits : Nat)
  if p.neg then (if fracIsZero p then -ip else -ip - 1) else ip

/-- Proleptic-Gregorian date from days since 1970-01-01
(the standard civil-from-days conversion). -/
def civilFromDays (z : Int) : Int × Int × Int :=
  let z2 := z + 719468
  let era := z2.fdiv 146097
  let doe := z2 - era * 146097
  let yoe := (doe - doe.fdiv 1460 + doe.fdiv 36524 - doe.fdiv 146096).fdiv 365
  let y := yoe + era * 400
  let doy := doe - (365 * yoe + yoe.fdiv 4 - yoe.fdiv 100)
  let mp := (5 * doy + 2).fdiv 153
  let d := doy - (153 * mp + 2).fdiv 5 + 1
  let m := mp + (if mp < 10 then 3 else -9)
  (y + (if m ≤ 2 then 1 else 0), m, d)

/-- Days since 1970-01-01 of a proleptic-Gregorian date
(the standard days-from-civil conversion). -/
def daysFromCivil (y m d : Int) : Int :=
  let y2 := y - (if m ≤ 2 then 1 else 0)
  let era := y2.fdiv 400
  let yoe := y2 - era * 400
  let mp := if m > 2 then m - 3 else m + 9
  let doy := (153 * mp + 2).fdiv 5 + d - 1
  let doe := yoe * 365 + yoe.fdiv 4 - yoe.fdiv 100 + doy
  era * 146097 + doe - 719468

/-- UTC datetime of an integer count of seconds since the epoch:
the model of datetime.fromtimestamp(v, tz=timezone.utc) restricted to the
fields the scripts read. -/
def epochToDateTime (z : Int) : DateTime :=
  let days := z.fdiv 86400
  let sod := z - 86400 * days
  let ymd := civilFromDays days
  { year := ymd.1, month := ymd.2.1, day := ymd.2.2,
    hour := sod.fdiv 3600, minute := (sod.fdiv 60).emod 60, second := sod.emod 60 }

/-- Model of datetime.fromtimestamp(_, tz=timezone.utc) on the integer
second a value floors into: none models the ValueError raised when the
result would fall outside the representable datetime years 1..9999, that
is outside [-62135596800, 253402300799] seconds since the epoch
(0001-01-01T00:00:00 to 9999-12-31T23:59:59). -/
def fromtimestampUtc (z : Int) : Option DateTime :=
  if -62135596800 ≤ z ∧ z ≤ 253402300799 then some (epochToDateTime z) else none

/-- ISO weekday (Monday = 1 .. Sunday = 7) of an epoch-day count
(1970-01-01 was a Thursday). -/
def isoWeekday (days : Int) : Int := (days + 3).emod 7 + 1

/-- Gregorian leap-year test. -/
def isLeap (y : Int) : Bool :=
  (y.emod 4 = 0 && y.emod 100 ≠ 0) || y.emod 400 = 0

/-- Number of ISO-8601 weeks in a year: 53 when January 1 is a Thursday,
or a Wednesday of a leap year; otherwise 52. -/
def isoWeeksInYear (y : Int) : Int :=
  let jan1wd := isoWeekday (daysFromCivil y 1 1)
  if jan1wd = 4 || (isLeap y && jan1wd = 3) then 53 else 52

/-- ISO-8601 week number of a date: the model of dt.isocalendar()[1]. -/
def isoWeekOfDate (y m d : Int) : Int :=
  let days := daysFromCivil y m d
  let ord := days - daysFromCivil y 1 1 + 1
  let wd := isoWeekday days
  let w := (ord - wd + 10).fdiv 7
  if w < 1 then isoWeeksInYear (y - 1)
  else if w > isoWeeksInYear y then 1
  else w

/-- Zero-padded two-digit rendering of a small nonnegative integer: the
model of the 02d format used for month, day, hour, minute, second. -/
def pad2 (i : Int) : String :=
  if 0 ≤ i ∧ i < 10 then "0" ++ toString i else toString i

/-- The strftime "%Y-%m-%dT%H:%M:%S" rendering of a datetime. -/
def strftimeIso (dt : DateTime) : String :=
  toString dt.year ++ "-" ++ pad2 dt.month ++ "-" ++ pad2 dt.day ++ "T" ++
    pad2 dt.hour ++ ":" ++ pad2 dt.minute ++ ":" ++ pad2 dt.second

/-- Python s.split(".")[1]: the text between the first dot and the second
dot or end of string (only used under a guard that s contains a dot; the
empty result on a dotless string is never reached through that guard). -/
def fracPart (s : String) : String :=
  match (splitAtDot s.data).2 with
  | none => ""
  | some rest => String.mk (splitAtDot rest).1

namespace FocMd

/-!
Embedding of src/scripts/foc-md-formatter.py.
-/

/-- ts_to_datetime: float(ts) then datetime.fromtimestamp(_, tz=utc);
none models the ValueError raised on an unparseable string (within the
modelled grammar) and the ValueError raised by fromtimestamp on a value
outside the representable datetime range. -/
def ts_to_datetime (ts : String) : Option DateTime :=
  (parsePyFloat ts).bind (fun p => fromtimestampUtc (floorSeconds p))

/-- get_iso_week: dt.isocalendar()[1]. -/
def get_iso_week (dt : DateTime) : Int :=
  isoWeekOfDate dt.year dt.month dt.day

/-- The fixed label of format_permalink: U+1F9F5 followed by
"conversation". -/
def conversationLabel : String :=
  String.singleton (Char.ofNat 0x1F9F5) ++ "conversation"

/-- The archive permalink url template of format_permalink. -/
def permalinkUrl (year month week channel isoTs : String) : String :=
  "https://history.futureofcoding.org/history/weekly/" ++ year ++ "/" ++
    month ++ "/W" ++ week ++ "/" ++ channel ++ ".html#" ++ isoTs

/-- format_permalink (archive variant): parse the timestamp, then build
the archive url from the year, the zero-padded month, the ISO week and
the anchor; the anchor milliseconds come from the raw timestamp string.
none models the uncaught exception when the timestamp does not parse. -/
def format_permalink (headers : Headers) (body : Body) : Option FormattedLink :=
  let channel_name := headers.channel_name.getD "general"
  let message_ts := headers.message_ts.getD ""
  match ts_to_datetime message_ts with
  | none => none
  | some dt =>
    let year := toString dt.year
    let month := pad2 dt.month
    let week := get_iso_week dt
    let iso0 := strftimeIso dt
    let iso_timestamp :=
      if containsChar message_ts '.' then
        let micros := fracPart message_ts
        let millis := String.mk (micros.data.take 3)
        iso0 ++ ("." ++ millis ++ "Z")
      else iso0 ++ ".000Z"
    some { label := conversationLabel,
           url := permalinkUrl year month (toString week) channel_name iso_timestamp }

/-- The mimetype-to-extension table ext_map of format_file_url. -/
def ext_map : List (String × String) :=
  [("video/mp4", ".mp4"),
   ("video/quicktime", ".mov"),
   ("image/png", ".png"),
   ("image/jpeg", ".jpg"),
   ("image/gif", ".gif"),
   ("audio/mp3", ".mp3"),
   ("audio/mpeg", ".mp3"),
   ("application/pdf", ".pdf")]

/-- Suffix of a character list from its last dot (inclusive); none when
there is no dot. -/
def fromLastDot : List Char → Option (List Char)
  | [] => none
  | c :: cs =>
    match fromLastDot cs with
    | some r => some r
    | none => if c = '.' then some (c :: cs) else none

/-- Python filename[filename.rfind("."):]: the substring from the last dot
to the end (only invoked when filename contains a dot; the default on a
dotless string is never reached through format_file_url). -/
def extFromLastDot (s : String) : String :=
  String.mk ((fromLastDot s.data).getD [])

/-- The file url template of format_file_url. -/
def fileUrl (shard full_filename : String) : String :=
  "https://history.futureofcoding.org/history/msg_files/" ++ shard ++ "/" ++
    full_filename

/-- format_file_url: shard directory is the first 3 characters of the
file id (empty when the id is empty); the extension comes from the last
dot of the filename when it has one, else from the ext_map table by
mimetype, else it is empty. -/
def format_file_url (file_id filename mimetype : String) : String :=
  let shard := if file_id = "" then "" else file_id.take 3
  let ext :=
    if filename ≠ "" ∧ containsChar filename '.' then extFromLastDot filename
    else if mimetype ≠ "" then (ext_map.lookup mimetype).getD ""
    else ""
  let full_filename := file_id ++ ext
  fileUrl shard full_filename

/-- format_file: the url is format_file_url of (id or ""), the display
filename (name or title or "") and the mimetype; the label is
(title or name or "Untitled"). -/
def format_file (headers : Headers) (body : Body) : FormattedLink :=
  let file_id := pyOrS body.id ""
  let filename := pyOrS body.name (pyOrS body.title "")
  let mimetype := body.mimetype.getD ""
  let url := format_file_url file_id filename mimetype
  let title := pyOrS body.title (pyOrS body.name "Untitled")
  { label := title, url := url }

/-- format_attachment: url is the first truthy of original_url, from_url,
title_link, url, else ""; label is the first truthy of title, name,
fallback, else "Untitled". -/
def format_attachment (headers : Headers) (body : Body) : FormattedLink :=
  let url :=
    pyOrS body.original_url
      (pyOrS body.from_url (pyOrS body.title_link (pyOrS body.url "")))
  let title := pyOrS body.title (pyOrS body.name (pyOrS body.fallback "Untitled"))
  { label := title, url := url }

end FocMd

namespace FormatLinks

/-!
Embedding of src/scripts/format-links.py.
-/

/-- Python message_ts.replace(".", ""): remove every dot. -/
def removeDots (s : String) : String :=
  String.mk (s.data.filter (fun c => ¬ (c = '.')))

/-- The plain Slack archive url template of format_permalink. -/
def archivesUrl (channel_id ts_for_url : String) : String :=
  "https://app.slack.com/archives/" ++ channel_id ++ "/p" ++ ts_for_url

/-- format_permalink (plain variant): fixed label, url built from the
channel id and the timestamp digits with the dot removed; no parsing or
validation of the timestamp. -/
def format_permalink (headers : Headers) (body : Body) : FormattedLink :=
  let channel_id := headers.channel_id.getD ""
  let message_ts := headers.message_ts.getD ""
  let ts_for_url := removeDots message_ts
  { label := "Conversation permalink", url := archivesUrl channel_id ts_for_url }

/-- format_attachment of format-links.py, textually the same fallback
chains as the foc variant. -/
def format_attachment (headers : Headers) (body : Body) : FormattedLink :=
  let url :=
    pyOrS body.original_url
      (pyOrS body.from_url (pyOrS body.title_link (pyOrS body.url "")))
  let title := pyOrS body.title (pyOrS body.name (pyOrS body.fallback "Untitled"))
  { label := title, url := url }

/-- format_file (plain variant): pass-through of url_private, permalink
or url; label from title, name or "Untitled file". -/
def format_file (headers : Headers) (body : Body) : FormattedLink :=
  let url := pyOrS body.url_private (pyOrS body.permalink (pyOrS body.url ""))
  let title := pyOrS body.title (pyOrS body.name "Untitled file")
  { label := title, url := url }

end FormatLinks

/-- A response written to stdout: a link record for the format-* actions,
a content record for prefix/suffix. -/
inductive Response where
  | link (l : FormattedLink)
  | content (c : String)
deriving DecidableEq, Repr

/-- Observable outcome of one invocation after the JSON request has been
parsed: the JSON response on stdout if any, the diagnostic on stderr if
any, and the exit code. -/
structure Outcome where
  stdout : Option Response
  stderr : Option String
  exitCode : Nat
deriving DecidableEq, Repr

/-- Success outcome: response on stdout, nothing on stderr, exit code 0. -/
def Outcome.ok (r : Response) : Outcome :=
  { stdout := some r, stderr := none, exitCode := 0 }

/-- Failure outcome: nothing on stdout, diagnostic on stderr, exit code 1. -/
def Outcome.err (msg : String) : Outcome :=
  { stdout := none, stderr := some msg, exitCode := 1 }

namespace FocMd

/-- The fixed multi-line footer constant SUFFIX of foc-md-formatter.py
(transcribed byte-for-byte from the source, where the emoji are stored
mojibake-encoded). -/
def SUFFIX : String := "\n----------\n\nðŸ‘¨ðŸ½â€ðŸ’» By ðŸ˜ [@marianoguerra@hachyderm.io](https://hachyderm.io/@marianoguerra) ðŸ¦‹ [@marianoguerra.org](https://bsky.app/profile/marianoguerra.org)\n\nðŸ’¬ Not a member yet? Check the [Feeling of Computing Community](https://feelingof.com/)\n\nâœ‰ï¸ Not subscribed yet? [Subscribe to the Newsletter](https://newsletter.futureofcoding.org/join/) / [Archive](https://newsletter.futureofcoding.org/archive.html) / [RSS](https://history.futureofcoding.org/newsletter/rss.xml)\n\nðŸŽ™ï¸ Prefer podcasts? check the [Feeling of Computing Podcast](https://feelingof.com/episodes/)\n\n"

/-- The action dispatch of main in foc-md-formatter.py, after the JSON
request has been parsed: five recognized actions, an unrecognized action
reports a diagnostic on stderr and exits 1 with no stdout response.  The
source wraps the action value in single quotes inside the message; a
failing timestamp parse in format_permalink is caught by the generic
exception handler, which reports the ValueError text. -/
def mainDispatch (headers : Headers) (body : Body) : Outcome :=
  let action := headers.action.getD ""
  if action = "format-permalink" then
    match format_permalink headers body with
    | some r => Outcome.ok (Response.link r)
    | none =>
      Outcome.err
        ("Error: could not convert string to float: " ++ headers.message_ts.getD "")
  else if action = "format-attachment" then
    Outcome.ok (Response.link (format_attachment headers body))
  else if action = "format-file" then
    Outcome.ok (Response.link (format_file headers body))
  else if action = "prefix" then
    Outcome.ok (Response.content "")
  else if action = "suffix" then
    Outcome.ok (Response.content SUFFIX)
  else
    Outcome.err ("Error: Unknown action " ++ action)

end FocMd

namespace FormatLinks

/-- The action dispatch of main in format-links.py, after the JSON request
has been parsed: three recognized actions, an unrecognized action reports
a diagnostic on stderr and exits 1 with no stdout response.  The source
wraps the action value in single quotes inside the message. -/
def mainDispatch (headers : Headers) (body : Body) : Outcome :=
  let action := headers.action.getD ""
  if action = "format-permalink" then
    Outcome.ok (Response.link (format_permalink headers body))
  else if action = "format-attachment" then
    Outcome.ok (Response.link (format_attachment headers body))
  else if action = "format-file" then
    Outcome.ok (Response.link (format_file headers body))
  else
    Outcome.err ("Error: Unknown action " ++ action)

end FormatLinks

/-!
Specification-side definitions.  Each of these follows the words of the
spec, or of a claim under scrutiny, rather than the source text, for
comparison with the transcribed functions above.
-/

/-- Spec wording of the fallback chains: the first present and non-empty
entry of the list, else the default. -/
def firstNonEmptyD : List (Option String) → String → String
  | [], d => d
  | none :: rest, d => firstNonEmptyD rest d
  | some s :: rest, d => if s = "" then firstNonEmptyD rest d else s

/-- The fixed mimetype-table step of the extension resolution as the spec
words it: the table entry of the mimetype, else the empty string. -/
def specMimeExt (mimetype : Option String) : String :=
  match mimetype with
  | some m => (FocMd.ext_map.lookup m).getD ""
  | none => ""

/-- The extension-resolution order exactly as claim C1 words it: from the
last dot of the name field when the name contains a dot, otherwise the
mimetype table, otherwise empty.  (The code differs: it resolves from
name or title.) -/
def claimedExt (name mimetype : Option String) : String :=
  match name with
  | some n => if containsChar n '.' then FocMd.extFromLastDot n else specMimeExt mimetype
  | none => specMimeExt mimetype

/-- The full file url as claim C1 words it. -/
def claimedFileUrl (body : Body) : String :=
  FocMd.fileUrl ((pyOrS body.id "").take 3)
    (pyOrS body.id "" ++ claimedExt body.name body.mimetype)

/-- The amended extension resolution: computed from the display filename,
which is the name field falling back to the title field when the name is
absent or empty; from its last dot when it contains a dot, otherwise the
mimetype table, otherwise empty. -/
def resolvedExt (name title mimetype : Option String) : String :=
  let fn := pyOrS name (pyOrS title "")
  if containsChar fn '.' then FocMd.extFromLastDot fn else specMimeExt mimetype


/-!
Helper lemmas.
-/

/-- Unfolding the fallback chain one step: Python `x or rest` equals the
first-non-empty reading with x put in front of the remaining candidates. -/
theorem firstNonEmptyD_cons (o : Option String) (l : List (Option String)) (d : String) :
    firstNonEmptyD (o :: l) d = pyOrS o (firstNonEmptyD l d) := by
  cases o <;> simp [firstNonEmptyD, pyOrS]

/-- The unknown-action diagnostic is never the empty string. -/
theorem unknown_msg_ne_empty (a : String) : ("Error: Unknown action " ++ a) ≠ "" := by
  intro hcontra
  have hl := congrArg String.length hcontra
  rw [String.length_append] at hl
  have h22 : ("Error: Unknown action " : String).length = 22 := rfl
  have h0 : ("" : String).length = 0 := rfl
  rw [h22, h0] at hl
  omega

/-- A string containing a character is not empty. -/
theorem ne_empty_of_containsChar (s : String) (c : Char) (h : containsChar s c = true) :
    s ≠ "" := by
  intro he
  rw [he] at h
  simp [containsChar] at h

/-- Evaluation shape of the archive format_permalink once the timestamp
parses: fixed label, url from the calendar year, zero-padded month, ISO
week, channel name and the anchor whose milliseconds are taken from the
raw timestamp string. -/
theorem format_permalink_eval (h : Headers) (b : Body) (dt : DateTime)
    (hdt : FocMd.ts_to_datetime (h.message_ts.getD "") = some dt) :
    FocMd.format_permalink h b =
      some { label := FocMd.conversationLabel,
             url := FocMd.permalinkUrl (toString dt.year) (pad2 dt.month)
                      (toString (FocMd.get_iso_week dt)) (h.channel_name.getD "general")
                      (if containsChar (h.message_ts.getD "") '.' then
                        strftimeIso dt ++
                          ("." ++ String.mk ((fracPart (h.message_ts.getD "")).data.take 3) ++ "Z")
                      else strftimeIso dt ++ ".000Z") } := by
  simp only [FocMd.format_permalink, hdt]

/-!
Claim theorems.
-/

/-- Claim C4: the archive permalink for channel share-your-work and
timestamp 1736762741.815000 has the fixed conversation-icon label
(U+1F9F5 followed by "conversation") and exactly the expected url. -/
theorem foc_permalink_share_your_work :
    FocMd.format_permalink
        { channel_name := some "share-your-work", message_ts := some "1736762741.815000" } {} =
      some { label := String.singleton (Char.ofNat 0x1F9F5) ++ "conversation",
             url := "https://history.futureofcoding.org/history/weekly/2025/01/W3/share-your-work.html#2025-01-13T10:05:41.815Z" } := by
  decide

/-- Claim C6: the attachment action returns the first non-empty of
original_url, from_url, title_link, url (else "") as the url and the
first non-empty of title, name, fallback (else "Untitled") as the label,
pass-through; a body with none of these fields yields Untitled and "". -/
theorem attachment_fallback_chains :
    ∀ (h : Headers) (b : Body),
      FocMd.format_attachment h b =
        { label := firstNonEmptyD [b.title, b.name, b.fallback] "Untitled",
          url := firstNonEmptyD [b.original_url, b.from_url, b.title_link, b.url] "" } ∧
      FocMd.format_attachment {} {} = { label := "Untitled", url := "" } := by
  intro h b
  constructor
  · simp [FocMd.format_attachment, firstNonEmptyD_cons, firstNonEmptyD]
  · rfl

/-- Claim C9: the attachment formatters of the two scripts are
extensionally equal on every headers and body. -/
theorem attachment_formatters_agree :
    ∀ (h : Headers) (b : Body),
      FormatLinks.format_attachment h b = FocMd.format_attachment h b := by
  intro h b
  rfl

/-- Claim C7: the plain-variant permalink action always returns the fixed
label "Conversation permalink" and the app.slack.com archives url built
from the channel id and the timestamp with its dots removed, with no
parsing or validation; a non-conforming timestamp is passed through
digit-stripped and the operation is total. -/
theorem links_permalink_digit_strip :
    ∀ (h : Headers) (b : Body),
      FormatLinks.format_permalink h b =
        { label := "Conversation permalink",
          url := FormatLinks.archivesUrl (h.channel_id.getD "")
                   (FormatLinks.removeDots (h.message_ts.getD "")) } ∧
      FormatLinks.format_permalink
          { channel_id := some "C123", message_ts := some "1234.5678" } {} =
        { label := "Conversation permalink",
          url := "https://app.slack.com/archives/C123/p12345678" } ∧
      FormatLinks.format_permalink
          { channel_id := some "C9", message_ts := some "a.b.c" } {} =
        { label := "Conversation permalink",
          url := "https://app.slack.com/archives/C9/pabc" } := by
  intro h b
  exact ⟨rfl, by decide, by decide⟩

/-- Claim C8: in both scripts, an unrecognized action value produces no
stdout response, a non-zero exit status, and a non-empty diagnostic on
stderr. -/
theorem unknown_action_rejected :
    ∀ (h : Headers) (b : Body),
      ((h.action.getD "") ∉
          (["format-permalink", "format-attachment", "format-file", "prefix", "suffix"] :
            List String) →
        (FocMd.mainDispatch h b).stdout = none ∧
        (FocMd.mainDispatch h b).exitCode ≠ 0 ∧
        ∃ m, (FocMd.mainDispatch h b).stderr = some m ∧ m ≠ "") ∧
      ((h.action.getD "") ∉
          (["format-permalink", "format-attachment", "format-file"] : List String) →
        (FormatLinks.mainDispatch h b).stdout = none ∧
        (FormatLinks.mainDispatch h b).exitCode ≠ 0 ∧
        ∃ m, (FormatLinks.mainDispatch h b).stderr = some m ∧ m ≠ "") := by
  intro h b
  constructor
  · intro ha
    simp only [List.mem_cons, List.not_mem_nil, or_false, not_or] at ha
    obtain ⟨h1, h2, h3, h4, h5⟩ := ha
    refine ⟨?_, ?_, ⟨"Error: Unknown action " ++ (h.action.getD ""), ?_, unknown_msg_ne_empty _⟩⟩ <;>
      simp [FocMd.mainDispatch, h1, h2, h3, h4, h5, Outcome.err]
  · intro ha
    simp only [List.mem_cons, List.not_mem_nil, or_false, not_or] at ha
    obtain ⟨h1, h2, h3⟩ := ha
    refine ⟨?_, ?_, ⟨"Error: Unknown action " ++ (h.action.getD ""), ?_, unknown_msg_ne_empty _⟩⟩ <;>
      simp [FormatLinks.mainDispatch, h1, h2, h3, Outcome.err]

/-- Witness for claim C8 at the concrete unrecognized action "bogus". -/
theorem unknown_action_rejected_witness :
    (FocMd.mainDispatch { action := some "bogus" } {}).stdout = none ∧
    (FocMd.mainDispatch { action := some "bogus" } {}).exitCode ≠ 0 ∧
    (FormatLinks.mainDispatch { action := some "bogus" } {}).stdout = none ∧
    (FormatLinks.mainDispatch { action := some "bogus" } {}).exitCode ≠ 0 := by
  have hk := unknown_action_rejected { action := some "bogus" } {}
  have h1 := hk.1 (by decide)
  have h2 := hk.2 (by decide)
  exact ⟨h1.1, h1.2.1, h2.1, h2.2.1⟩

/-- The extension-resolution branch of format_file_url equals the amended
policy computed from the name-or-title display filename. -/
theorem ext_resolution (nm ti mi : Option String) :
    (if pyOrS nm (pyOrS ti "") ≠ "" ∧ containsChar (pyOrS nm (pyOrS ti "")) '.' then
       FocMd.extFromLastDot (pyOrS nm (pyOrS ti ""))
     else if mi.getD "" ≠ "" then (FocMd.ext_map.lookup (mi.getD "")).getD "" else "") =
      resolvedExt nm ti mi := by
  simp only [resolvedExt]
  generalize pyOrS nm (pyOrS ti "") = fn
  by_cases hdot : containsChar fn '.' = true
  · have hne : fn ≠ "" := ne_empty_of_containsChar fn '.' hdot
    simp [hdot, hne]
  · simp only [Bool.not_eq_true] at hdot
    simp [hdot]
    cases mi with
    | none => simp [specMimeExt]
    | some m =>
      by_cases hm : m = ""
      · subst hm
        simp [specMimeExt]
        decide
      · simp [specMimeExt, hm]

/-- Claim C1, counterexample: with name absent, title "x.png" and mimetype
video/mp4, the code resolves the extension from the title (".png"), while
the claim as stated resolves it from the mimetype table (".mp4"); the two
urls differ. -/
theorem file_ext_name_only_counterexample :
    FocMd.format_file {}
        { id := some "F0AABCDEF", title := some "x.png", mimetype := some "video/mp4" } =
      { label := "x.png",
        url := "https://history.futureofcoding.org/history/msg_files/F0A/F0AABCDEF.png" } ∧
    claimedFileUrl { id := some "F0AABCDEF", title := some "x.png", mimetype := some "video/mp4" } =
      "https://history.futureofcoding.org/history/msg_files/F0A/F0AABCDEF.mp4" ∧
    (FocMd.format_file {}
        { id := some "F0AABCDEF", title := some "x.png", mimetype := some "video/mp4" }).url ≠
      claimedFileUrl { id := some "F0AABCDEF", title := some "x.png", mimetype := some "video/mp4" } := by
  exact ⟨by decide, by decide, by decide⟩

/-- Claim C1 as amended: for every file body the url is
msg_files / shard / id + ext, where the shard is the first 3 characters
of the id (empty when the id is absent or empty) and the extension is
resolved from the display filename (name, falling back to title when the
name is absent or empty): from its last dot when it contains one,
otherwise from the fixed mimetype table, otherwise empty. -/
theorem file_url_shard_and_ext :
    ∀ (h : Headers) (b : Body),
      (FocMd.format_file h b).url =
        FocMd.fileUrl ((pyOrS b.id "").take 3)
          (pyOrS b.id "" ++ resolvedExt b.name b.title b.mimetype) := by
  intro h b
  show FocMd.format_file_url (pyOrS b.id "") (pyOrS b.name (pyOrS b.title ""))
        (b.mimetype.getD "") = _
  simp only [FocMd.format_file_url]
  rw [ext_resolution]
  by_cases hid : pyOrS b.id "" = ""
  · rw [hid]
    rfl
  · rw [if_neg hid]

/-- Claim C2, counterexample: both directions of the claimed
characterization fail.  The strictly negative decimal string "-1.000000"
parses successfully and yields the pre-epoch UTC datetime
1969-12-31T23:59:59 instead of failing; and the non-negative decimal
string "999999999999" is parseable (float accepts it) yet the operation
fails, because fromtimestamp rejects year 33658 as out of range. -/
theorem negative_timestamp_parses :
    FocMd.ts_to_datetime "-1.000000" =
      some { year := 1969, month := 12, day := 31, hour := 23, minute := 59, second := 59 } ∧
    FocMd.ts_to_datetime "-1.000000" ≠ none ∧
    (parsePyFloat "999999999999").isSome = true ∧
    floorSeconds ⟨false, ['9', '9', '9', '9', '9', '9', '9', '9', '9', '9', '9', '9'], none⟩ =
      999999999999 ∧
    FocMd.ts_to_datetime "999999999999" = none := by
  exact ⟨by decide, by decide, by decide, by decide, by decide⟩

/-- Claim C2 as amended: parseTimestamp applies no sign check, so failure
does not coincide with not being a non-negative decimal.  Every string of
the modelled decimal form (optional sign, digits, optional dot and
fraction digits) with at most 6 fraction digits and floor second of
magnitude at most 2^32 — the region where the exact-decimal model
provably agrees with the float64 route — parses successfully to the UTC
datetime of its floor second, and when the sign is negative and the
value nonzero that floor second is strictly negative, a pre-epoch
datetime.  Strings the builtin cannot parse at all fail, shown at the
concrete instances "", "abc" and "1.2.3"; parseable but out-of-range
values also fail, shown in the counterexample theorem. -/
theorem ts_parse_no_sign_check :
    (∀ (s : String) (p : PyDecimal),
      parsePyFloat s = some p →
      (p.fracDigits.getD []).length ≤ 6 →
      -4294967296 ≤ floorSeconds p →
      floorSeconds p ≤ 4294967296 →
      FocMd.ts_to_datetime s = some (epochToDateTime (floorSeconds p)) ∧
      (p.neg = true → ¬(digitsToNat p.intDigits = 0 ∧ fracIsZero p = true) →
        floorSeconds p < 0)) ∧
    FocMd.ts_to_datetime "" = none ∧
    FocMd.ts_to_datetime "abc" = none ∧
    FocMd.ts_to_datetime "1.2.3" = none := by
  refine ⟨?_, by decide, by decide, by decide⟩
  intro s p hp hfrac hlo hhi
  constructor
  · have hg1 : (-62135596800 : Int) ≤ floorSeconds p := by omega
    have hg2 : floorSeconds p ≤ (253402300799 : Int) := by omega
    simp [FocMd.ts_to_datetime, hp, fromtimestampUtc, hg1, hg2]
  · intro hneg hnz
    by_cases hf : fracIsZero p = true
    · have hip : digitsToNat p.intDigits ≠ 0 := fun h0 => hnz ⟨h0, hf⟩
      simp [floorSeconds, hneg, hf]
      omega
    · simp only [Bool.not_eq_true] at hf
      simp [floorSeconds, hneg, hf]
      omega

/-- Witness for claim C2 at the concrete input "-1.000000". -/
theorem ts_parse_no_sign_check_witness :
    FocMd.ts_to_datetime "-1.000000" =
      some (epochToDateTime (floorSeconds ⟨true, ['1'], some ['0', '0', '0', '0', '0', '0']⟩)) ∧
    floorSeconds ⟨true, ['1'], some ['0', '0', '0', '0', '0', '0']⟩ < 0 := by
  have hk := ts_parse_no_sign_check.1 "-1.000000"
    ⟨true, ['1'], some ['0', '0', '0', '0', '0', '0']⟩
    (by decide) (by decide) (by decide) (by decide)
  exact ⟨hk.1, hk.2 (by decide) (by decide)⟩

/-- Claim C3: the archive permalink url path combines the input date's own
calendar year and zero-padded calendar month with the ISO-8601 week
number (not the ISO week-year): 2021-01-01 is week 53, 2023-01-01 week
52, 2024-01-01 week 1; timestamp 1609459200.000000 (2021-01-01) yields,
for any channel, the path 2021/01/W53 — calendar year 2021 with the ISO
week of week-year 2020 — and timestamp 1704067200.000000 yields, for any
channel, a url with /2024/01/ and /W1/. -/
theorem permalink_calendar_year_iso_week :
    (∀ (h : Headers) (b : Body) (dt : DateTime),
      FocMd.ts_to_datetime (h.message_ts.getD "") = some dt →
      ∃ anchor : String,
        FocMd.format_permalink h b =
          some { label := FocMd.conversationLabel,
                 url := FocMd.permalinkUrl (toString dt.year) (pad2 dt.month)
                          (toString (FocMd.get_iso_week dt))
                          (h.channel_name.getD "general") anchor }) ∧
    FocMd.get_iso_week (epochToDateTime 1609459200) = 53 ∧
    FocMd.get_iso_week (epochToDateTime 1672531200) = 52 ∧
    FocMd.get_iso_week (epochToDateTime 1704067200) = 1 ∧
    (∀ (ch : String) (b : Body),
      FocMd.format_permalink
          { channel_name := some ch, message_ts := some "1609459200.000000" } b =
        some { label := FocMd.conversationLabel,
               url := FocMd.permalinkUrl "2021" "01" "53" ch "2021-01-01T00:00:00.000Z" }) ∧
    (∀ (ch : String) (b : Body),
      FocMd.format_permalink
          { channel_name := some ch, message_ts := some "1704067200.000000" } b =
        some { label := FocMd.conversationLabel,
               url := FocMd.permalinkUrl "2024" "01" "1" ch "2024-01-01T00:00:00.000Z" }) := by
  refine ⟨?_, by decide, by decide, by decide, ?_, ?_⟩
  · intro h b dt hdt
    exact ⟨_, format_permalink_eval h b dt hdt⟩
  · intro ch b
    have hdt : FocMd.ts_to_datetime "1609459200.000000" =
        some ⟨2021, 1, 1, 0, 0, 0⟩ := by decide
    rw [format_permalink_eval
      { channel_name := some ch, message_ts := some "1609459200.000000" } b
      ⟨2021, 1, 1, 0, 0, 0⟩ hdt]
    rfl
  · intro ch b
    have hdt : FocMd.ts_to_datetime "1704067200.000000" =
        some ⟨2024, 1, 1, 0, 0, 0⟩ := by decide
    rw [format_permalink_eval
      { channel_name := some ch, message_ts := some "1704067200.000000" } b
      ⟨2024, 1, 1, 0, 0, 0⟩ hdt]
    rfl

/-- Witness for claim C3 at timestamp 1704067200.000000, channel general. -/
theorem permalink_calendar_year_iso_week_witness :
    ∃ anchor : String,
      FocMd.format_permalink
          { channel_name := some "general", message_ts := some "1704067200.000000" } {} =
        some { label := FocMd.conversationLabel,
               url := FocMd.permalinkUrl "2024" "01" "1" "general" anchor } := by
  obtain ⟨a, ha⟩ := permalink_calendar_year_iso_week.1
      { channel_name := some "general", message_ts := some "1704067200.000000" } {}
      ⟨2024, 1, 1, 0, 0, 0⟩ (by decide)
  refine ⟨a, ?_⟩
  rw [ha]
  rfl

/-- Claim C5: for every valid timestamp string the permalink is produced
deterministically, and the anchor milliseconds are the first 3 characters
of the fractional part of the original input string, taken verbatim (the
datetime contributes only the date and time down to seconds); when the
input has no dot the milliseconds are "000". -/
theorem permalink_millis_from_input_string :
    ∀ (h : Headers) (b : Body) (dt : DateTime),
      FocMd.ts_to_datetime (h.message_ts.getD "") = some dt →
      (FocMd.format_permalink h b =
        some { label := FocMd.conversationLabel,
               url := FocMd.permalinkUrl (toString dt.year) (pad2 dt.month)
                        (toString (FocMd.get_iso_week dt)) (h.channel_name.getD "general")
                        (if containsChar (h.message_ts.getD "") '.' then
                          strftimeIso dt ++
                            ("." ++ String.mk ((fracPart (h.message_ts.getD "")).data.take 3) ++ "Z")
                        else strftimeIso dt ++ ".000Z") }) ∧
      (∀ r1 r2 : FormattedLink,
        FocMd.format_permalink h b = some r1 →
        FocMd.format_permalink h b = some r2 → r1 = r2) := by
  intro h b dt hdt
  refine ⟨format_permalink_eval h b dt hdt, ?_⟩
  intro r1 r2 e1 e2
  rw [e1] at e2
  exact Option.some.inj e2

/-- Witness for claim C5 at timestamp 1736762741.815000: the anchor
milliseconds are the first 3 fraction digits "815" of the input. -/
theorem permalink_millis_from_input_string_witness :
    FocMd.format_permalink
        { channel_name := some "share-your-work", message_ts := some "1736762741.815000" } {} =
      some { label := FocMd.conversationLabel,
             url := FocMd.permalinkUrl "2025" "01" "3" "share-your-work"
                      ("2025-01-13T10:05:41" ++ ("." ++ "815" ++ "Z")) } := by
  have hk := (permalink_millis_from_input_string
      { channel_name := some "share-your-work", message_ts := some "1736762741.815000" } {}
      ⟨2025, 1, 13, 10, 5, 41⟩ (by decide)).1
  rw [hk]
  rfl

/-- Claim C10: when the timestamp contains a dot followed by fewer than 3
characters, the anchor millisecond field is exactly that short fractional
part with no zero-padding; concretely an input ending ".8" gives an
anchor ending ".8Z" and an input with a bare trailing dot gives an anchor
ending ".Z". -/
theorem permalink_short_frac_no_padding :
    (∀ (h : Headers) (b : Body) (dt : DateTime),
      FocMd.ts_to_datetime (h.message_ts.getD "") = some dt →
      containsChar (h.message_ts.getD "") '.' = true →
      (fracPart (h.message_ts.getD "")).length < 3 →
      FocMd.format_permalink h b =
        some { label := FocMd.conversationLabel,
               url := FocMd.permalinkUrl (toString dt.year) (pad2 dt.month)
                        (toString (FocMd.get_iso_week dt)) (h.channel_name.getD "general")
                        (strftimeIso dt ++ ("." ++ fracPart (h.message_ts.getD "") ++ "Z")) }) ∧
    FocMd.format_permalink { channel_name := some "general", message_ts := some "1700000000.8" } {} =
      some { label := FocMd.conversationLabel,
             url := "https://history.futureofcoding.org/history/weekly/2023/11/W46/general.html#2023-11-14T22:13:20.8Z" } ∧
    FocMd.format_permalink { channel_name := some "general", message_ts := some "1700000000." } {} =
      some { label := FocMd.conversationLabel,
             url := "https://history.futureofcoding.org/history/weekly/2023/11/W46/general.html#2023-11-14T22:13:20.Z" } := by
  refine ⟨?_, by decide, by decide⟩
  intro h b dt hdt hdot hlen
  rw [format_permalink_eval h b dt hdt]
  have hlen3 : (fracPart (h.message_ts.getD "")).data.length ≤ 3 := Nat.le_of_lt hlen
  simp only [hdot, if_true]
  rw [List.take_of_length_le hlen3]

/-- Witness for claim C10 at the concrete short-fraction input
"1700000000.8". -/
theorem permalink_short_frac_no_padding_witness :
    FocMd.format_permalink { channel_name := some "general", message_ts := some "1700000000.8" } {} =
      some { label := FocMd.conversationLabel,
             url := FocMd.permalinkUrl "2023" "11" "46" "general"
                      ("2023-11-14T22:13:20" ++ ("." ++ "8" ++ "Z")) } := by
  have hk := permalink_short_frac_no_padding.1
      { channel_name := some "general", message_ts := some "1700000000.8" } {}
      ⟨2023, 11, 14, 22, 13, 20⟩ (by decide) (by decide) (by decide)
  rw [hk]
  rfl
